import Mathlib

/-
Verification of the client-side invoice filtering / aggregation / pagination
pipeline of src/client/src/pages/Dashboard.tsx.

Modelling conventions:
* JavaScript strings are modelled as lists of characters (`JSString`), so that
  lower-casing, trimming and substring tests compute inside the kernel.
* The amount field 含税总价 is typed `number` in the source but may hold
  null / undefined / NaN in malformed data (the aggregator guards against all
  three), so it is modelled by `JSVal`.
* `Date` values are modelled by `JSDate`: either an invalid date (NaN time
  value) or a valid date identified by its epoch-milliseconds timestamp.
  Date-string parsing (`new Date(string)`) is kept abstract: the filter takes
  a parse function `pd : JSString → JSDate` as a parameter, and concrete
  theorems instantiate it with an explicit table consistent with ECMAScript
  parsing in a UTC environment.
-/

/-- A JavaScript string, as its list of UTF-16-ish characters. -/
abbrev JSString := List Char

/-- A JavaScript value stored in a numeric field: null, undefined, NaN, or a
finite number (modelled as a rational). -/
inductive JSVal where
  | null
  | undefined
  | nan
  | num (q : ℚ)
deriving DecidableEq

/-- One invoice row (interface `InvoiceData` in Dashboard.tsx).
Field correspondence: invoiceNo = 发票号, issuingCompany = 开票公司,
receivingCompany = 收票公司, time = 时间, productName = 产品名称,
defaultSpec = 默认规格, quantity = 数量, totalPriceWithTax = 含税总价. -/
structure InvoiceData where
  invoiceNo : JSString
  issuingCompany : JSString
  receivingCompany : JSString
  time : JSString
  productName : JSString
  defaultSpec : Option JSString
  quantity : ℤ
  totalPriceWithTax : JSVal
deriving DecidableEq

/-- A JavaScript `Date`: invalid (NaN time value) or valid with an
epoch-milliseconds timestamp. -/
inductive JSDate where
  | invalid
  | valid (ms : ℤ)
deriving DecidableEq

/-- JavaScript `<` on Date values: any comparison involving an invalid date
(NaN time value) is false. -/
def jsdLt (a b : JSDate) : Bool :=
  match a, b with
  | .valid x, .valid y => decide (x < y)
  | _, _ => false

/-- JavaScript `>` on Date values: any comparison involving an invalid date
is false. -/
def jsdGt (a b : JSDate) : Bool :=
  match a, b with
  | .valid x, .valid y => decide (y < x)
  | _, _ => false

/-- Models `endDate.setHours(23, 59, 59, 999)` in Dashboard.tsx line 173.
The end-date string comes from a date input, so it parses to the UTC midnight
of its calendar day; in a UTC-offset-zero environment setting the local time
to 23:59:59.999 adds 86399999 ms. `setHours` on an invalid date leaves it
invalid. -/
def setEndOfDay (d : JSDate) : JSDate :=
  match d with
  | .invalid => .invalid
  | .valid t => .valid (t + 86399999)

/-- ECMAScript ToNumber as used by relational comparison on the amount field:
null coerces to 0; undefined and NaN have no numeric value (none), and every
comparison against them is false. -/
def toNum (v : JSVal) : Option ℚ :=
  match v with
  | .null => some 0
  | .undefined => none
  | .nan => none
  | .num q => some q

/-- JavaScript `amount < m` for a finite number m (the computed minPrice). -/
def jsvLtNum (a : JSVal) (m : ℚ) : Bool :=
  match toNum a with
  | some x => decide (x < m)
  | none => false

/-- JavaScript `amount > maxPrice` where maxPrice is
`priceRange.max ? parseFloat(priceRange.max) : Infinity` (source line 181):
none models Infinity, and `x > Infinity` is false for every number and for
NaN. -/
def jsvGtMax (a : JSVal) (mx : Option ℚ) : Bool :=
  match mx with
  | some m =>
      match toNum a with
      | some x => decide (m < x)
      | none => false
  | none => false

/-- JavaScript `String.prototype.toLowerCase` (ASCII case folding suffices for
the reasoning here). -/
def jsToLower (s : JSString) : JSString := s.map Char.toLower

/-- JavaScript `String.prototype.includes`: substring test. -/
def jsIncludes (s sub : JSString) : Bool := decide (sub <:+: s)

/-- JavaScript `String.prototype.trim`: strip whitespace from both ends. -/
def jsTrim (s : JSString) : JSString :=
  ((s.dropWhile Char.isWhitespace).reverse.dropWhile Char.isWhitespace).reverse

/-- The filter state of the dashboard (searchKeyword, selectedProduct,
selectedBillingCompany, selectedInvoiceCompany, dateRange, priceRange).
String slots are inactive when empty, mirroring JS truthiness of the "" value.
priceMin / priceMax hold the `parseFloat` value of a non-empty bound string
(source lines 180-181); none models the empty, unset bound. -/
structure PredicateSet where
  searchKeyword : JSString
  selectedProduct : JSString
  selectedBillingCompany : JSString
  selectedInvoiceCompany : JSString
  dateStart : JSString
  dateEnd : JSString
  priceMin : Option ℚ
  priceMax : Option ℚ
deriving DecidableEq

/-- Keyword block of the filter callback (source lines 138-146): active when
the trimmed keyword is non-empty; a record matches when any of the four
fields is non-empty and lower-cased contains the lower-cased keyword. -/
def keywordPass (p : PredicateSet) (item : InvoiceData) : Bool :=
  if jsTrim p.searchKeyword ≠ [] then
    let keyword := jsToLower p.searchKeyword
    (decide (item.invoiceNo ≠ []) && jsIncludes (jsToLower item.invoiceNo) keyword) ||
    (decide (item.issuingCompany ≠ []) && jsIncludes (jsToLower item.issuingCompany) keyword) ||
    (decide (item.receivingCompany ≠ []) && jsIncludes (jsToLower item.receivingCompany) keyword) ||
    (decide (item.productName ≠ []) && jsIncludes (jsToLower item.productName) keyword)
  else true

/-- Product block (source lines 154-156): exact match when active. -/
def productPass (p : PredicateSet) (item : InvoiceData) : Bool :=
  if p.selectedProduct ≠ [] ∧ item.productName ≠ p.selectedProduct then false else true

/-- Receiving-company block (source lines 157-159): exact match when active. -/
def billingPass (p : PredicateSet) (item : InvoiceData) : Bool :=
  if p.selectedBillingCompany ≠ [] ∧ item.receivingCompany ≠ p.selectedBillingCompany then
    false
  else true

/-- Issuing-company block (source lines 160-162): exact match when active. -/
def invoicePass (p : PredicateSet) (item : InvoiceData) : Bool :=
  if p.selectedInvoiceCompany ≠ [] ∧ item.issuingCompany ≠ p.selectedInvoiceCompany then
    false
  else true

/-- Date-range block (source lines 164-176): when a bound is set, the record
date is parsed and compared; the record is dropped when itemDate < startDate
or itemDate > endOfDay(endDate). -/
def datePass (pd : JSString → JSDate) (p : PredicateSet) (item : InvoiceData) : Bool :=
  if p.dateStart ≠ [] ∨ p.dateEnd ≠ [] then
    let itemDate := pd item.time
    (if p.dateStart ≠ [] then !(jsdLt itemDate (pd p.dateStart)) else true) &&
    (if p.dateEnd ≠ [] then !(jsdGt itemDate (setEndOfDay (pd p.dateEnd))) else true)
  else true

/-- Price-range block (source lines 179-185): when a bound is set,
minPrice defaults to 0, maxPrice defaults to Infinity, and the record is
dropped when amount < minPrice or amount > maxPrice. -/
def pricePass (p : PredicateSet) (item : InvoiceData) : Bool :=
  if p.priceMin.isSome || p.priceMax.isSome then
    let minPrice : ℚ := p.priceMin.getD 0
    !(jsvLtNum item.totalPriceWithTax minPrice ||
      jsvGtMax item.totalPriceWithTax p.priceMax)
  else true

/-- The body of the filter callback (source lines 136-190): the source is an
early-return chain of guard blocks, equivalent to this conjunction. -/
def recordMatches (pd : JSString → JSDate) (p : PredicateSet) (item : InvoiceData) : Bool :=
  keywordPass p item && productPass p item && billingPass p item &&
  invoicePass p item && datePass pd p item && pricePass p item

/-- `filteredData` (source line 135): the record store filtered by the
conjunction of active predicates. -/
def filteredData (pd : JSString → JSDate) (p : PredicateSet)
    (invoiceData : List InvoiceData) : List InvoiceData :=
  invoiceData.filter (fun item => recordMatches pd p item)

/-- Net effect on currentPage of recomputing filteredData: the source calls
`setCurrentPage(1)` inside the filter callback just before `return true`
(source line 187), so the reset fires iff at least one record passes; when
the filtered result is empty the previous page number is kept. -/
def pageAfterFilterChange (pd : JSString → JSDate) (p : PredicateSet)
    (invoiceData : List InvoiceData) (currentPage : ℤ) : ℤ :=
  if (filteredData pd p invoiceData).isEmpty then currentPage else 1

/-- Fixed page size (source line 106). -/
def pageSize : ℕ := 10

/-- `totalPages = Math.ceil(filteredData.length / pageSize)` (source line
203). -/
def totalPages (flen : ℕ) : ℤ := ⌈(flen : ℚ) / (pageSize : ℚ)⌉

/-- `Array.prototype.slice(a, b)` for 0 ≤ a ≤ b: elements at indices
[a, b). -/
def listSlice (l : List InvoiceData) (a b : ℕ) : List InvoiceData :=
  (l.take b).drop a

/-- `currentData = filteredData.slice((currentPage-1)*pageSize,
currentPage*pageSize)` (source lines 206-209). -/
def currentData (l : List InvoiceData) (page : ℕ) : List InvoiceData :=
  listSlice l ((page - 1) * pageSize) (page * pageSize)

/-- `handlePageChange` (source lines 212-215): out-of-range requests are
ignored, otherwise the current page becomes the requested page. -/
def handlePageChange (tp currentPage page : ℤ) : ℤ :=
  if page < 1 ∨ page > tp then currentPage else page

/-- Aggregation result (interface `AggregationStats` in Dashboard.tsx). -/
structure AggregationStats where
  totalInvoices : ℕ
  totalAmount : ℚ
  averageAmount : ℚ
  maxAmount : ℚ
  minAmount : ℚ
  companyCount : ℕ
  productCount : ℕ
deriving DecidableEq

/-- The validity test of source lines 233-235
(`amount !== null && amount !== undefined && !isNaN(amount)`): the surviving
values are exactly the finite numbers. -/
def validAmount (v : JSVal) : Option ℚ :=
  match v with
  | .num q => some q
  | _ => none

/-- `amounts` in the stats computation (source lines 231-235): the amount of
every record of the view, restricted to valid numbers. -/
def validAmounts (view : List InvoiceData) : List ℚ :=
  (view.map (fun item => item.totalPriceWithTax)).filterMap validAmount

/-- `Math.max(...amounts)` for the non-empty amounts list (the empty case is
unreachable behind the length guard; 0 is a dummy there). -/
def mathMax (l : List ℚ) : ℚ :=
  match l with
  | [] => 0
  | a :: rest => rest.foldl max a

/-- `Math.min(...amounts)` for the non-empty amounts list. -/
def mathMin (l : List ℚ) : ℚ :=
  match l with
  | [] => 0
  | a :: rest => rest.foldl min a

/-- `stats` (source lines 218-260): all-zero stats when the view is empty or
no amount is valid; otherwise count = view length, sum / average / max / min
over the valid amounts, and distinct counts of issuing companies and product
names over the full view (`new Set(...).size` = number of distinct values). -/
def aggregate (view : List InvoiceData) : AggregationStats :=
  if view.length = 0 then
    ⟨0, 0, 0, 0, 0, 0, 0⟩
  else
    let amounts := validAmounts view
    if amounts.length = 0 then
      ⟨0, 0, 0, 0, 0, 0, 0⟩
    else
      let totalAmount := amounts.foldl (· + ·) 0
      { totalInvoices := view.length
        totalAmount := totalAmount
        averageAmount := totalAmount / (amounts.length : ℚ)
        maxAmount := mathMax amounts
        minAmount := mathMin amounts
        companyCount := ((view.map (fun item => item.issuingCompany)).dedup).length
        productCount := ((view.map (fun item => item.productName)).dedup).length }

/-- `Array.prototype.sort()` with the default comparator on strings:
lexicographic ascending order (insertion sort over the lexicographic order on
character lists). -/
def sortedStrings (l : List JSString) : List JSString :=
  List.insertionSort (· ≤ ·) l

/-- `uniqueCompanies` (source lines 109-113):
`Array.from(new Set(data.map(item => item.开票公司).filter(Boolean))).sort()`.
De-duplication keeps one copy of every value; since the result is sorted, the
first-occurrence order of the JS Set is immaterial. -/
def uniqueCompanies (invoiceData : List InvoiceData) : List JSString :=
  sortedStrings
    (((invoiceData.map (fun item => item.issuingCompany)).filter
        (fun s => decide (s ≠ []))).dedup)

/-- `uniqueProducts` (source lines 116-120): same over 产品名称. -/
def uniqueProducts (invoiceData : List InvoiceData) : List JSString :=
  sortedStrings
    (((invoiceData.map (fun item => item.productName)).filter
        (fun s => decide (s ≠ []))).dedup)

/-- `uniqueBillingCompanies` (source lines 122-126): same over 收票公司. -/
def uniqueBillingCompanies (invoiceData : List InvoiceData) : List JSString :=
  sortedStrings
    (((invoiceData.map (fun item => item.receivingCompany)).filter
        (fun s => decide (s ≠ []))).dedup)

/-- `uniqueInvoiceCompanies` (source lines 128-132): same over 开票公司. -/
def uniqueInvoiceCompanies (invoiceData : List InvoiceData) : List JSString :=
  sortedStrings
    (((invoiceData.map (fun item => item.issuingCompany)).filter
        (fun s => decide (s ≠ []))).dedup)

/-- The all-empty predicate set: every filter inactive. -/
def emptyPredicateSet : PredicateSet :=
  ⟨[], [], [], [], [], [], none, none⟩

/-- A predicate set with only the amount-range slots possibly active. -/
def pricePredicate (mn mx : Option ℚ) : PredicateSet :=
  ⟨[], [], [], [], [], [], mn, mx⟩

/-- A predicate set with only the date-range slots possibly active. -/
def datePredicate (s e : JSString) : PredicateSet :=
  ⟨[], [], [], [], s, e, none, none⟩

/-- A degenerate date parser that fails on every string; adequate for claims
that do not involve the date filter. -/
def pdInvalid (_ : JSString) : JSDate := .invalid

/-- A sample well-formed record. -/
def sampleRecord : InvoiceData :=
  ⟨"INV-001".toList, "AlphaCorp".toList, "BetaCorp".toList,
   "2024-01-15".toList, "Widget".toList, none, 1, .num 100⟩

/-- A record whose amount is NaN. -/
def rNaN : InvoiceData :=
  ⟨"INV-002".toList, "AlphaCorp".toList, "BetaCorp".toList,
   "2024-01-16".toList, "Widget".toList, none, 2, .nan⟩

/-- A record builder fixing every field except the amount. -/
def recAmount (v : JSVal) : InvoiceData :=
  ⟨"INV-A".toList, "AlphaCorp".toList, "BetaCorp".toList,
   "2024-01-17".toList, "Widget".toList, none, 1, v⟩

/-- A predicate set selecting a product no record carries. -/
def productGadgetPredicate : PredicateSet :=
  ⟨[], "Gadget".toList, [], [], [], [], none, none⟩

/-- Concrete date-parse table for the §8 date-range scenario, consistent with
ECMAScript `new Date` in a UTC environment: date-only forms parse to UTC
midnight, date-time forms without offset to the stated wall-clock time. -/
def pdTest (s : JSString) : JSDate :=
  if s = "2024-01-01".toList then .valid 1704067200000
  else if s = "2024-01-31".toList then .valid 1706659200000
  else if s = "2024-01-31T23:00".toList then .valid 1706742000000
  else if s = "2024-02-01T00:00".toList then .valid 1706745600000
  else .invalid

/-- A record timestamped 2024-01-31T23:00. -/
def rJan31 : InvoiceData :=
  ⟨"INV-J".toList, "AlphaCorp".toList, "BetaCorp".toList,
   "2024-01-31T23:00".toList, "Widget".toList, none, 1, .num 10⟩

/-- A record timestamped 2024-02-01T00:00. -/
def rFeb1 : InvoiceData :=
  ⟨"INV-F".toList, "AlphaCorp".toList, "BetaCorp".toList,
   "2024-02-01T00:00".toList, "Widget".toList, none, 1, .num 10⟩

lemma jsdLt_invalid_left (b : JSDate) : jsdLt .invalid b = false := by
  cases b <;> rfl

lemma jsdGt_invalid_left (b : JSDate) : jsdGt .invalid b = false := by
  cases b <;> rfl

lemma recordMatches_empty (pd : JSString → JSDate) (r : InvoiceData) :
    recordMatches pd emptyPredicateSet r = true := by
  simp [recordMatches, keywordPass, productPass, billingPass, invoicePass,
    datePass, pricePass, emptyPredicateSet, jsTrim]

lemma recordMatches_pricePredicate (pd : JSString → JSDate) (mn mx : Option ℚ)
    (r : InvoiceData) :
    recordMatches pd (pricePredicate mn mx) r = pricePass (pricePredicate mn mx) r := by
  simp [recordMatches, keywordPass, productPass, billingPass, invoicePass,
    datePass, pricePredicate, jsTrim]

lemma recordMatches_datePredicate (pd : JSString → JSDate) (s e : JSString)
    (r : InvoiceData) :
    recordMatches pd (datePredicate s e) r = datePass pd (datePredicate s e) r := by
  simp [recordMatches, keywordPass, productPass, billingPass, invoicePass,
    pricePass, datePredicate, jsTrim]

/-- C8: for every parse function, predicate set and record list, the filtered
view is a subsequence of the input (stable filter: every returned record
occurs in the input, in the same relative order), and the all-empty predicate
set returns the input unchanged. -/
theorem filter_is_order_preserving_subset (pd : JSString → JSDate)
    (p : PredicateSet) (l : List InvoiceData) :
    (filteredData pd p l).Sublist l ∧ filteredData pd emptyPredicateSet l = l := by
  constructor
  · exact List.filter_sublist l
  · exact List.filter_eq_self.mpr fun a _ => recordMatches_empty pd a

/-- C10: a record whose timestamp fails to parse is retained by the
date-range filter for every choice of start/end bounds (both comparisons
against the invalid parsed date are false), and the filter is a total
function, so no error is raised. -/
theorem invalid_timestamp_record_retained (pd : JSString → JSDate)
    (s e : JSString) (r : InvoiceData) (h : pd r.time = .invalid) :
    recordMatches pd (datePredicate s e) r = true := by
  rw [recordMatches_datePredicate]
  unfold datePass
  split
  · simp [datePredicate, h, jsdLt_invalid_left, jsdGt_invalid_left]
  · rfl

/-- C10 witness: the degenerate parser fails on the sample record, which is
nevertheless retained under an active date range. -/
theorem invalid_timestamp_record_retained_witness :
    pdInvalid sampleRecord.time = JSDate.invalid ∧
    recordMatches pdInvalid
      (datePredicate ("2024-01-01".toList) ("2024-01-31".toList)) sampleRecord = true :=
  ⟨rfl, invalid_timestamp_record_retained pdInvalid _ _ sampleRecord rfl⟩

/-- C6: a page request n is a no-op when n < 1 or n > totalPages, and sets
the current page to n otherwise; in particular requests for page 0 and page
totalPages + 1 leave the current page unchanged. -/
theorem goToPage_clamping (tp cp n : ℤ) :
    ((n < 1 ∨ n > tp) → handlePageChange tp cp n = cp) ∧
    ((1 ≤ n ∧ n ≤ tp) → handlePageChange tp cp n = n) ∧
    handlePageChange tp cp 0 = cp ∧
    handlePageChange tp cp (tp + 1) = cp := by
  refine ⟨?_, ?_, ?_, ?_⟩
  · intro h
    unfold handlePageChange
    rw [if_pos h]
  · intro h
    unfold handlePageChange
    rw [if_neg (by omega)]
  · unfold handlePageChange
    rw [if_pos (Or.inl (by omega))]
  · unfold handlePageChange
    rw [if_pos (Or.inr (by omega))]

/-- C6 witness: requesting page 0 with 3 total pages and current page 2
leaves the page at 2. -/
theorem goToPage_clamping_witness :
    ((0 : ℤ) < 1 ∨ (0 : ℤ) > 3) ∧ handlePageChange 3 2 0 = 2 :=
  ⟨Or.inl (by norm_num), (goToPage_clamping 3 2 0).1 (Or.inl (by norm_num))⟩

/-- C2 evaluated at the failing input: with current page 3, changing the
predicate set to one that matches no record yields an empty filtered view
but leaves the current page at 3, because the source resets the page inside
the filter callback, once per passing record; the same change towards a
predicate set with survivors does reset the page to 1. -/
theorem page_reset_skipped_on_empty_filter_result :
    filteredData pdInvalid productGadgetPredicate [sampleRecord] = [] ∧
    pageAfterFilterChange pdInvalid productGadgetPredicate [sampleRecord] 3 = 3 ∧
    pageAfterFilterChange pdInvalid emptyPredicateSet [sampleRecord] 3 = 1 := by
  decide

/-- C1 counterexample: a record with NaN amount and an active minimum bound
is NOT dropped by the amount-range filter: both comparisons against NaN are
false, so the record survives. -/
theorem amount_filter_keeps_nan_counterexample :
    (pricePredicate (some 0) none).priceMin.isSome = true ∧
    rNaN.totalPriceWithTax = JSVal.nan ∧
    filteredData pdInvalid (pricePredicate (some 0) none) [rNaN] = [rNaN] := by
  decide

/-- C1 (amended): within the amount-range filter, the minimum defaults to 0
and the maximum to positive infinity, and a record with a finite amount
passes iff the amount lies in [min, max] inclusive; a record whose amount is
NaN is RETAINED even when a bound is active, because both comparisons
against NaN are false and the filter only drops a record when a comparison
is true. -/
theorem amount_range_filter_semantics (pd : JSString → JSDate) (r : InvoiceData)
    (mn mx : Option ℚ) (q : ℚ) :
    (r.totalPriceWithTax = JSVal.num q → (mn.isSome ∨ mx.isSome) →
      (recordMatches pd (pricePredicate mn mx) r = true ↔
        mn.getD 0 ≤ q ∧ ∀ m ∈ mx, q ≤ m)) ∧
    (r.totalPriceWithTax = JSVal.nan →
      recordMatches pd (pricePredicate mn mx) r = true) := by
  constructor
  · intro hq hb
    rw [recordMatches_pricePredicate]
    rcases mn with _ | mval <;> rcases mx with _ | mxval
    · rcases hb with hb | hb <;> simp at hb
    · simp [pricePass, pricePredicate, jsvLtNum, jsvGtMax, toNum, hq, not_lt]
    · simp [pricePass, pricePredicate, jsvLtNum, jsvGtMax, toNum, hq, not_lt]
    · simp [pricePass, pricePredicate, jsvLtNum, jsvGtMax, toNum, hq, not_lt]
  · intro hq
    rw [recordMatches_pricePredicate]
    rcases mx with _ | mxval <;>
      simp [pricePass, pricePredicate, jsvLtNum, jsvGtMax, toNum, hq]

/-- C1 witness: the sample record with amount 100 passes the filter with
bounds min = 0, max = 200. -/
theorem amount_range_filter_semantics_witness :
    sampleRecord.totalPriceWithTax = JSVal.num 100 ∧
    recordMatches pdInvalid (pricePredicate (some 0) (some 200)) sampleRecord = true := by
  refine ⟨rfl, ?_⟩
  refine ((amount_range_filter_semantics pdInvalid sampleRecord (some 0) (some 200) 100).1
    rfl (Or.inl rfl)).mpr ⟨by norm_num, ?_⟩
  intro m hm
  simp only [Option.mem_def, Option.some.injEq] at hm
  rw [← hm]
  norm_num

/-- C3: the aggregator returns the all-zero statistics whenever the view is
empty or no amount in the view is a valid number; in particular the count
field is forced to 0 rather than the view length in the degenerate branch. -/
theorem aggregate_zero_on_degenerate_view (view : List InvoiceData)
    (h : view.length = 0 ∨ validAmounts view = []) :
    aggregate view = ⟨0, 0, 0, 0, 0, 0, 0⟩ := by
  rcases h with h | h
  · simp [aggregate, h]
  · by_cases hv : view.length = 0
    · simp [aggregate, hv]
    · simp [aggregate, hv, h]

/-- C3 witness: a non-empty view containing only a NaN-amount record has no
valid amounts and aggregates to the all-zero statistics (count 0, not 1). -/
theorem aggregate_zero_on_degenerate_view_witness :
    validAmounts [rNaN] = [] ∧
    aggregate [rNaN] = ⟨0, 0, 0, 0, 0, 0, 0⟩ :=
  ⟨rfl, aggregate_zero_on_degenerate_view [rNaN] (Or.inr rfl)⟩

/-- C4: for every view whose four records carry amounts 100, 200, NaN, 300,
the aggregate has total 600, average 200 (sum over the 3 valid amounts
divided by 3), max 300, min 100, and count 4: the NaN record is excluded
from the numeric statistics but still counted in the view length. -/
theorem aggregate_mixed_nan_amounts (r1 r2 r3 r4 : InvoiceData)
    (h1 : r1.totalPriceWithTax = JSVal.num 100)
    (h2 : r2.totalPriceWithTax = JSVal.num 200)
    (h3 : r3.totalPriceWithTax = JSVal.nan)
    (h4 : r4.totalPriceWithTax = JSVal.num 300) :
    (aggregate [r1, r2, r3, r4]).totalAmount = 600 ∧
    (aggregate [r1, r2, r3, r4]).averageAmount = 200 ∧
    (aggregate [r1, r2, r3, r4]).maxAmount = 300 ∧
    (aggregate [r1, r2, r3, r4]).minAmount = 100 ∧
    (aggregate [r1, r2, r3, r4]).totalInvoices = 4 := by
  have hva : validAmounts [r1, r2, r3, r4] = [100, 200, 300] := by
    simp [validAmounts, validAmount, h1, h2, h3, h4]
  refine ⟨?_, ?_, ?_, ?_, ?_⟩ <;> simp [aggregate, hva, mathMax, mathMin] <;> norm_num

/-- C4 witness: the statement evaluated at four concrete records. -/
theorem aggregate_mixed_nan_amounts_witness :
    (aggregate [recAmount (JSVal.num 100), recAmount (JSVal.num 200),
        recAmount JSVal.nan, recAmount (JSVal.num 300)]).totalAmount = 600 ∧
    (aggregate [recAmount (JSVal.num 100), recAmount (JSVal.num 200),
        recAmount JSVal.nan, recAmount (JSVal.num 300)]).averageAmount = 200 ∧
    (aggregate [recAmount (JSVal.num 100), recAmount (JSVal.num 200),
        recAmount JSVal.nan, recAmount (JSVal.num 300)]).maxAmount = 300 ∧
    (aggregate [recAmount (JSVal.num 100), recAmount (JSVal.num 200),
        recAmount JSVal.nan, recAmount (JSVal.num 300)]).minAmount = 100 ∧
    (aggregate [recAmount (JSVal.num 100), recAmount (JSVal.num 200),
        recAmount JSVal.nan, recAmount (JSVal.num 300)]).totalInvoices = 4 :=
  aggregate_mixed_nan_amounts _ _ _ _ rfl rfl rfl rfl

lemma totalPages_eq_ceilDiv (n : ℕ) : totalPages n = ((n + 9) / 10 : ℕ) := by
  unfold totalPages
  have h10 : ((pageSize : ℕ) : ℚ) = 10 := by norm_num [pageSize]
  rw [h10]
  set k : ℕ := (n + 9) / 10 with hk
  have ha : (n : ℚ) ≤ 10 * (k : ℚ) := by exact_mod_cast (by omega : n ≤ 10 * k)
  have hb : 10 * (k : ℚ) ≤ (n : ℚ) + 9 := by exact_mod_cast (by omega : 10 * k ≤ n + 9)
  have hdiv : ((n : ℚ) / 10) * 10 = (n : ℚ) := by field_simp
  rw [Int.ceil_eq_iff]
  push_cast
  constructor
  · linarith
  · linarith

/-- C5: with fixed page size 10, the total page count is the ceiling of
filteredCount / 10 (0 when the count is 0), and page p holds exactly the
elements of the filtered list at indices [(p-1)*10, p*10); for a filtered
count of 25 there are 3 pages and page 3 holds exactly 5 records. -/
theorem pagination_totalPages_and_slice (flen : ℕ) (l : List InvoiceData)
    (p i : ℕ) (hp : 1 ≤ p) :
    totalPages flen = ((flen + 9) / 10 : ℕ) ∧
    (flen = 0 → totalPages flen = 0) ∧
    ((currentData l p)[i]? = if i < 10 then l[(p - 1) * 10 + i]? else none) ∧
    totalPages 25 = 3 ∧
    (currentData (List.replicate 25 sampleRecord) 3).length = 5 := by
  refine ⟨totalPages_eq_ceilDiv flen, ?_, ?_, ?_, by decide⟩
  · intro h
    rw [h, totalPages_eq_ceilDiv 0]
    norm_num
  · unfold currentData listSlice pageSize
    rw [List.getElem?_drop, List.getElem?_take]
    by_cases hi : i < 10
    · rw [if_pos (by omega), if_pos hi]
    · rw [if_neg (by omega), if_neg hi]
  · rw [totalPages_eq_ceilDiv 25]
    decide

/-- C5 witness: the theorem evaluated at a 25-record list, page 3. -/
theorem pagination_totalPages_and_slice_witness :
    1 ≤ 3 ∧ (currentData (List.replicate 25 sampleRecord) 3).length = 5 :=
  ⟨by decide,
   (pagination_totalPages_and_slice 25 (List.replicate 25 sampleRecord) 3 0
      (by decide)).2.2.2.2⟩

/-- C7: when a start date is set, a record passing the filter has parsed
timestamp at or after the parsed start date; when an end date is set, a
passing record has parsed timestamp at most the end date plus 86399999 ms
(the time forced to 23:59:59.999, so the whole end day is included); with
range 2024-01-01 to 2024-01-31, a record at 2024-01-31T23:00 is included and
one at 2024-02-01T00:00 is excluded. -/
theorem date_range_filter_bounds :
    (∀ (pd : JSString → JSDate) (s e : JSString) (r : InvoiceData) (t ts : ℤ),
        s ≠ [] → pd r.time = .valid t → pd s = .valid ts →
        recordMatches pd (datePredicate s e) r = true → ts ≤ t) ∧
    (∀ (pd : JSString → JSDate) (s e : JSString) (r : InvoiceData) (t te : ℤ),
        e ≠ [] → pd r.time = .valid t → pd e = .valid te →
        recordMatches pd (datePredicate s e) r = true → t ≤ te + 86399999) ∧
    recordMatches pdTest
      (datePredicate ("2024-01-01".toList) ("2024-01-31".toList)) rJan31 = true ∧
    recordMatches pdTest
      (datePredicate ("2024-01-01".toList) ("2024-01-31".toList)) rFeb1 = false := by
  refine ⟨?_, ?_, by decide, by decide⟩
  · intro pd s e r t ts hs hrt hps hm
    rw [recordMatches_datePredicate] at hm
    unfold datePass at hm
    simp only [datePredicate] at hm
    rw [if_pos (Or.inl hs), hrt, hps, if_pos hs, Bool.and_eq_true] at hm
    have hL := hm.1
    simp only [Bool.not_eq_true'] at hL
    simp only [jsdLt, decide_eq_false_iff_not] at hL
    omega
  · intro pd s e r t te he hrt hpe hm
    rw [recordMatches_datePredicate] at hm
    unfold datePass at hm
    simp only [datePredicate] at hm
    rw [if_pos (Or.inr he), hrt, hpe, if_pos he, Bool.and_eq_true] at hm
    have hR := hm.2
    simp only [Bool.not_eq_true'] at hR
    simp only [setEndOfDay, jsdGt, decide_eq_false_iff_not] at hR
    omega

/-- C7 witness: the start-bound statement evaluated on the included record of
the concrete scenario. -/
theorem date_range_filter_bounds_witness :
    ("2024-01-01".toList ≠ ([] : JSString)) ∧
    pdTest rJan31.time = JSDate.valid 1706742000000 ∧
    pdTest ("2024-01-01".toList) = JSDate.valid 1704067200000 ∧
    recordMatches pdTest
      (datePredicate ("2024-01-01".toList) ("2024-01-31".toList)) rJan31 = true ∧
    (1704067200000 : ℤ) ≤ 1706742000000 := by
  refine ⟨by decide, by decide, by decide, by decide, ?_⟩
  exact date_range_filter_bounds.1 pdTest ("2024-01-01".toList) ("2024-01-31".toList)
    rJan31 1706742000000 1704067200000 (by decide) (by decide) (by decide) (by decide)

lemma facet_sorted (g : InvoiceData → JSString) (d : List InvoiceData) :
    List.Sorted (· ≤ ·)
      (sortedStrings (((d.map g).filter (fun s => decide (s ≠ []))).dedup)) :=
  List.sorted_insertionSort _ _

lemma facet_nodup (g : InvoiceData → JSString) (d : List InvoiceData) :
    (sortedStrings (((d.map g).filter (fun s => decide (s ≠ []))).dedup)).Nodup :=
  (List.perm_insertionSort _ _).symm.nodup (List.nodup_dedup _)

lemma facet_mem (g : InvoiceData → JSString) (d : List InvoiceData) (x : JSString) :
    x ∈ sortedStrings (((d.map g).filter (fun s => decide (s ≠ []))).dedup) ↔
      x ≠ [] ∧ x ∈ d.map g := by
  unfold sortedStrings
  rw [(List.perm_insertionSort _ _).mem_iff, List.mem_dedup, List.mem_filter]
  simp [and_comm]

/-- C9: each facet list (issuing companies, receiving companies, product
names) is sorted ascending, duplicate-free, and contains exactly the
non-empty values of its field over the unfiltered record store; the
extractors take only the record store as input, so a change of the predicate
set cannot change their output. -/
theorem facet_extractor_sorted_dedup_nonempty (d : List InvoiceData) :
    (List.Sorted (· ≤ ·) (uniqueCompanies d) ∧ (uniqueCompanies d).Nodup ∧
      ∀ x, x ∈ uniqueCompanies d ↔
        x ≠ [] ∧ x ∈ d.map (fun item => item.issuingCompany)) ∧
    (List.Sorted (· ≤ ·) (uniqueInvoiceCompanies d) ∧ (uniqueInvoiceCompanies d).Nodup ∧
      ∀ x, x ∈ uniqueInvoiceCompanies d ↔
        x ≠ [] ∧ x ∈ d.map (fun item => item.issuingCompany)) ∧
    (List.Sorted (· ≤ ·) (uniqueBillingCompanies d) ∧ (uniqueBillingCompanies d).Nodup ∧
      ∀ x, x ∈ uniqueBillingCompanies d ↔
        x ≠ [] ∧ x ∈ d.map (fun item => item.receivingCompany)) ∧
    (List.Sorted (· ≤ ·) (uniqueProducts d) ∧ (uniqueProducts d).Nodup ∧
      ∀ x, x ∈ uniqueProducts d ↔
        x ≠ [] ∧ x ∈ d.map (fun item => item.productName)) := by
  exact ⟨⟨facet_sorted _ _, facet_nodup _ _, fun x => facet_mem _ _ x⟩,
    ⟨facet_sorted _ _, facet_nodup _ _, fun x => facet_mem _ _ x⟩,
    ⟨facet_sorted _ _, facet_nodup _ _, fun x => facet_mem _ _ x⟩,
    ⟨facet_sorted _ _, facet_nodup _ _, fun x => facet_mem _ _ x⟩⟩
